/-
Verification of the paper relevance/consensus scoring pipeline of the
research-paper assistant.

The development shallowly embeds the core pipeline:
- `src/models/paper.py` (the `Paper` dataclass and its score clamping),
- `src/config/settings.py` (thresholds and keyword lists),
- `src/services/ml_processor.py` (`MLPaperProcessor.process_papers`),
- `src/services/summarization_service.py`
  (`MLSummarizationService.generate_ml_consensus` and
  `_ml_sentiment_analysis`).

Numeric values are modelled with exact rationals (`ℚ`).  The calls into
the external numeric library (TF-IDF vectorization and cosine similarity)
are abstracted as an oracle argument `oracle : List String → String →
Except String (List (List ℚ) × List ℚ)` returning, for the paper texts and
the query, the document vectors and the per-paper similarities — or an
error, which models an exception raised inside the `try` block of
`process_papers` (the `except` handler then applies the uniform fallback).
An index mismatch between the similarity array and the paper list would
raise `IndexError` inside the update loop in Python and land in the same
handler; the embedding makes that explicit with a length guard.
-/
import Mathlib

namespace ResearchPaper

/-! ### Configuration (`src/config/settings.py`) -/

def MAX_CLUSTERS : ℕ := 3

def MIN_PAPERS_FOR_CLUSTERING : ℕ := 4

def HIGH_CONFIDENCE_THRESHOLD : ℚ := 7/10

def MEDIUM_CONFIDENCE_THRESHOLD : ℚ := 1/2

def RECENT_YEAR_THRESHOLD : ℤ := 2020

def STRONG_POSITIVE_THRESHOLD : ℚ := 70

def MODERATE_POSITIVE_THRESHOLD : ℚ := 55

def MODERATE_NEGATIVE_THRESHOLD : ℚ := 45

def STRONG_NEGATIVE_THRESHOLD : ℚ := 30

def POSITIVE_INDICATORS : List String :=
  ["effective", "improves", "increases", "beneficial", "positive", "significantly",
   "reduces", "decreases", "prevents", "enhances", "better", "successful",
   "improvement", "correlation", "associated with", "leads to"]

def NEGATIVE_INDICATORS : List String :=
  ["ineffective", "no effect", "no difference", "harmful", "negative",
   "worse", "fails", "unsuccessful", "no significant", "not significant",
   "no improvement", "no correlation", "unrelated"]

/-! ### Data model (`src/models/paper.py`) -/

/-- The `Paper` dataclass.  The citation count is a natural number (the
data model requires a non-negative integer; the dataclass default is 0).
`ml_relevance_score`, `ml_cluster` and `ml_summary_confidence` are the
ML-derived attributes, with the dataclass defaults 0.0, -1 and 0.0. -/
structure Paper where
  title : String
  authors : List String
  year : ℤ
  abstract : String
  url : String
  doi : Option String := none
  venue : Option String := none
  citation_count : ℕ := 0
  paper_id : Option String := none
  pdf_url : Option String := none
  tldr : Option String := none
  fields_of_study : List String := []
  influential_citation_count : ℕ := 0
  ml_relevance_score : ℚ := 0
  ml_cluster : ℤ := -1
  ml_summary_confidence : ℚ := 0
  deriving DecidableEq

/-- The clamping performed by `Paper.__post_init__`.  It runs once, at
construction; later attribute assignments (as done by `process_papers`)
do not re-run it. -/
def postInitClamp (p : Paper) : Paper :=
  { p with
    ml_relevance_score := max 0 (min 1 p.ml_relevance_score)
    ml_summary_confidence := max 0 (min 1 p.ml_summary_confidence) }

/-! ### Text assembly for vectorization (`ml_processor.py` lines 50-56) -/

/-- The text fed to the vectorizer for one paper: title and abstract,
with the joined fields of study appended when the list is non-empty. -/
def paperText (p : Paper) : String :=
  let text := p.title ++ " " ++ p.abstract
  if p.fields_of_study.isEmpty then text
  else text ++ " " ++ String.intercalate " " p.fields_of_study

/-! ### Confidence estimation (`ml_processor.py` lines 83-90) -/

/-- Mean of a list of rationals, as computed by `np.mean`. -/
def listMean (l : List ℚ) : ℚ := l.sum / l.length

/-- The four confidence factors for a paper whose similarity to the query
is `s`: relevance, normalized citation count, abstract quality, recency. -/
def confidenceFactors (s : ℚ) (p : Paper) : List ℚ :=
  [s,
   min ((p.citation_count : ℚ) / 100) 1,
   if p.abstract ≠ "" ∧ 100 < p.abstract.length then 1 else 1/2,
   if 2015 ≤ p.year then 1 else 7/10]

/-- `ml_summary_confidence` as assigned in the update loop: the mean of
the four confidence factors. -/
def confidenceScore (s : ℚ) (p : Paper) : ℚ :=
  listMean (confidenceFactors s p)

/-- One iteration of the update loop (`ml_processor.py` lines 79-90):
store the similarity as the relevance score, the cluster label, and the
confidence.  No clamping is applied at this assignment. -/
def applyML (p : Paper) (s : ℚ) (c : ℤ) : Paper :=
  { p with
    ml_relevance_score := s
    ml_cluster := c
    ml_summary_confidence := confidenceScore s p }

/-- The whole update loop, consuming papers, similarities and cluster
labels positionally. -/
def updateAll : List Paper → List ℚ → List ℤ → List Paper
  | p :: ps, s :: ss, c :: cs => applyML p s c :: updateAll ps ss cs
  | _, _, _ => []

/-- The `except` handler of `process_papers` (lines 100-107): uniform
default scores for every paper. -/
def applyFallback (p : Paper) : Paper :=
  { p with
    ml_relevance_score := 1/2
    ml_cluster := 0
    ml_summary_confidence := 1/2 }

/-! ### Stable descending sort (`ml_processor.py` line 93)

`papers.sort(key=lambda x: x.ml_relevance_score, reverse=True)` is
Python's Timsort: stable, and `reverse=True` keeps equal elements in
their prior relative order.  The embedding uses a stable insertion sort
with the same documented semantics. -/

/-- Insert `x` into `l` for a descending order on `f`: `x` is placed
before the first element whose key is ≤ its own, so an element coming
earlier in the original list stays before equal-key elements. -/
def insertByDesc (f : α → ℚ) (x : α) : List α → List α
  | [] => [x]
  | y :: ys => if f y ≤ f x then x :: y :: ys else y :: insertByDesc f x ys

/-- Stable sort, descending on the key `f`. -/
def sortByDesc (f : α → ℚ) (l : List α) : List α :=
  l.foldr (insertByDesc f) []

/-! ### Clustering (`ml_processor.py` lines 70-76)

Modelled from the spec: the source delegates to the external
`sklearn.cluster.KMeans(n_clusters, random_state=42).fit_predict`, which
is not part of this repository.  Per §4.3 of the spec it is a
centroid-based partitioning with a fixed random seed: the model seeds the
centroids deterministically with the first `k` points, runs a fixed
number of Lloyd iterations (assignment to the nearest centroid by squared
euclidean distance, then centroid recomputation), and returns the final
nearest-centroid label of every point.  Every label is an index into the
centroid list, hence lies in `[0, k)`. -/

/-- Index of the first minimum of a list of rationals (0 on `[]`). -/
def argminIdx : List ℚ → ℕ
  | [] => 0
  | [_] => 0
  | x :: y :: rest =>
    let j := argminIdx (y :: rest)
    if x ≤ (y :: rest).getD j 0 then 0 else j + 1

/-- Squared euclidean distance between two vectors (componentwise). -/
def sqDist (v w : List ℚ) : ℚ :=
  ((v.zip w).map (fun a => (a.1 - a.2) ^ 2)).sum

/-- Label of a point: the index of the nearest centroid. -/
def assignLabel (centroids : List (List ℚ)) (v : List ℚ) : ℕ :=
  argminIdx (centroids.map (sqDist v))

/-- Componentwise sum of vectors. -/
def vecSum : List (List ℚ) → List ℚ
  | [] => []
  | [v] => v
  | v :: w :: rest => (v.zip (vecSum (w :: rest))).map (fun a => a.1 + a.2)

/-- Componentwise mean of a non-empty list of vectors. -/
def vecMean (vs : List (List ℚ)) : List ℚ :=
  (vecSum vs).map (fun a => a / vs.length)

/-- One Lloyd iteration: recompute each centroid as the mean of the
points currently assigned to it, keeping the old centroid when no point
is assigned.  The number of centroids is preserved. -/
def lloydStep (points : List (List ℚ)) (centroids : List (List ℚ)) : List (List ℚ) :=
  (List.range centroids.length).map (fun j =>
    let members := points.filter (fun p => assignLabel centroids p == j)
    if members.isEmpty then centroids.getD j [] else vecMean members)

/-- Iterated Lloyd steps. -/
def lloydIter : ℕ → List (List ℚ) → List (List ℚ) → List (List ℚ)
  | 0, _, cs => cs
  | n + 1, pts, cs => lloydIter n pts (lloydStep pts cs)

/-- Modelled from the spec: `KMeans(n_clusters=k, random_state=42)
.fit_predict(points)` — deterministic centroid seeding, Lloyd iteration,
final nearest-centroid labels. -/
def kmeansFitPredict (k : ℕ) (points : List (List ℚ)) : List ℕ :=
  let cs := lloydIter 10 points (points.take k)
  points.map (assignLabel cs)

/-- Cluster labels for the paper list (`ml_processor.py` lines 70-76):
K-means with `min(MAX_CLUSTERS, len(papers))` clusters when the paper
count exceeds `MIN_PAPERS_FOR_CLUSTERING`, otherwise `np.zeros`. -/
def clustersFor (papers : List Paper) (vecs : List (List ℚ)) : List ℤ :=
  if MIN_PAPERS_FOR_CLUSTERING < papers.length then
    (kmeansFitPredict (min MAX_CLUSTERS papers.length) vecs).map (fun n : ℕ => (n : ℤ))
  else
    List.replicate papers.length 0

/-! ### The processing pipeline (`ml_processor.py` lines 34-107) -/

/-- The vectorize-and-score step delegated to the external library:
given the paper texts and the query it yields the document vectors and
the cosine similarities of each document to the query, or raises. -/
abbrev SimOracle := List String → String → Except String (List (List ℚ) × List ℚ)

/-- Outcome of the `try` block of `process_papers` given the result of
the external vectorize-and-score step: the `except` handler on an error
(or on the `IndexError` a length mismatch would cause), the update loop
followed by the stable descending sort otherwise. -/
def afterTry (papers : List Paper) (res : Except String (List (List ℚ) × List ℚ)) :
    List Paper :=
  match res with
  | .error _ => papers.map applyFallback
  | .ok (vecs, sims) =>
    let clusters := clustersFor papers vecs
    if sims.length = papers.length ∧ clusters.length = papers.length then
      sortByDesc (fun p => p.ml_relevance_score) (updateAll papers sims clusters)
    else
      papers.map applyFallback

/-- `MLPaperProcessor.process_papers`.  Empty input returns immediately
(the oracle is never consulted).  Otherwise the outcome of the external
vectorize-and-score step is handled by `afterTry`: fallback scores for
every paper on an exception, positional update and stable descending
sort on the normal path. -/
def process_papers (papers : List Paper) (query : String) (oracle : SimOracle) :
    List Paper :=
  if papers.isEmpty then papers
  else afterTry papers (oracle (papers.map paperText) query)

/-! ### Keyword matching (`summarization_service.py` lines 124-132)

Python's `indicator in abstract_lower` is a substring test on the
lower-cased abstract.  The embedding works on character lists. -/

/-- Lower-cased character list of a string, as `str.lower()` produces
for the ASCII keyword alphabet in play. -/
def lowerChars (s : String) : List Char :=
  s.toList.map Char.toLower

/-- Whether `needle` occurs at the very start of `hay`. -/
def firstChunk : List Char → List Char → Bool
  | [], _ => true
  | _ :: _, [] => false
  | a :: as, b :: bs => a == b && firstChunk as bs

/-- Whether `needle` occurs anywhere in `hay` (Python's `in`). -/
def subList (needle : List Char) : List Char → Bool
  | [] => firstChunk needle []
  | c :: rest => firstChunk needle (c :: rest) || subList needle rest

/-- Number of positions of `hay` at which `needle` occurs. -/
def countSub (needle : List Char) : List Char → ℕ
  | [] => if firstChunk needle [] then 1 else 0
  | c :: rest => (if firstChunk needle (c :: rest) then 1 else 0) + countSub needle rest

/-- The keyword counter of `_ml_sentiment_analysis`:
`sum(2 if indicator in abstract_lower else 0 for indicator in inds)`.
Each indicator contributes 2 when present as a substring — presence, not
occurrence count. -/
def indicatorScore (inds : List String) (ab : List Char) : ℤ :=
  (inds.map (fun ind => if subList ind.toList ab then (2 : ℤ) else 0)).sum

/-- Modelled from the spec: the occurrence-counting reading of §4.5
step 1 ("scan the abstract … for occurrences of members …; each match
contributes a fixed weight (2)"), in which every occurrence of an
indicator adds 2.  Kept distinct from `indicatorScore`, the counter the
source actually computes, to compare the two. -/
def occurrenceScore (inds : List String) (ab : List Char) : ℤ :=
  (inds.map (fun ind => 2 * (countSub ind.toList ab : ℤ))).sum

/-! ### Per-paper sentiment (`summarization_service.py` lines 113-141) -/

/-- The pre-squashing sentiment value: net keyword polarity scaled by
`relevance × (1 + min(citations/100, 1))`. -/
def sentimentCore (p : Paper) : ℚ :=
  let ab := lowerChars p.abstract
  let positiveKeywordScore := indicatorScore POSITIVE_INDICATORS ab
  let negativeKeywordScore := indicatorScore NEGATIVE_INDICATORS ab
  let relevance_boost := p.ml_relevance_score
  let citation_boost := min ((p.citation_count : ℚ) / 100) 1
  ((positiveKeywordScore - negativeKeywordScore : ℤ) : ℚ) * relevance_boost * (1 + citation_boost)

/-- `_ml_sentiment_analysis`: the scaled net polarity divided by 10 and
squashed through the hyperbolic tangent. -/
noncomputable def mlSentimentAnalysis (p : Paper) : ℝ :=
  Real.tanh ((sentimentCore p : ℝ) / 10)

/-! ### Consensus aggregation (`summarization_service.py` lines 34-111)

The aggregation is parametric in the per-paper sentiment assignment
`s : Paper → ℚ` (the values `_ml_sentiment_analysis` supplies), wrapped
in `Except` to model an exception raised inside the `try` block. -/

/-- The positive bucket built by the aggregation loop: for each paper
with sentiment above 0.1, its sentiment weighted by its own confidence. -/
def positiveScores (papers : List Paper) (s : Paper → ℚ) : List ℚ :=
  match papers with
  | [] => []
  | p :: rest =>
    if 1/10 < s p then s p * p.ml_summary_confidence :: positiveScores rest s
    else positiveScores rest s

/-- The negative bucket: for each paper falling through the positive
branch whose sentiment is below −0.1, the absolute sentiment weighted by
its confidence. -/
def negativeScores (papers : List Paper) (s : Paper → ℚ) : List ℚ :=
  match papers with
  | [] => []
  | p :: rest =>
    if 1/10 < s p then negativeScores rest s
    else if s p < -(1/10) then |s p| * p.ml_summary_confidence :: negativeScores rest s
    else negativeScores rest s

/-- Combined weight of both buckets. -/
def totalWeight (papers : List Paper) (s : Paper → ℚ) : ℚ :=
  (positiveScores papers s).sum + (negativeScores papers s).sum

/-- The aggregated positive percentage, defaulting to the neutral 50.0
when both buckets carry no weight. -/
def positivePct (papers : List Paper) (s : Paper → ℚ) : ℚ :=
  if 0 < totalWeight papers s then
    (positiveScores papers s).sum / totalWeight papers s * 100
  else 50

/-- Corpus-average confidence, `np.mean` over the stored confidences. -/
def avgConfidence (papers : List Paper) : ℚ :=
  listMean (papers.map (fun p => p.ml_summary_confidence))

/-- The verdict chain of `generate_ml_consensus` (lines 74-88), written
with the configured thresholds exactly as the source tests them; the
strong gate is `HIGH_CONFIDENCE_THRESHOLD - 0.1`. -/
def classifyConsensus (pct conf : ℚ) : String :=
  if STRONG_POSITIVE_THRESHOLD ≤ pct ∧ HIGH_CONFIDENCE_THRESHOLD - 1/10 < conf then
    "strong_positive"
  else if MODERATE_POSITIVE_THRESHOLD ≤ pct ∧ MEDIUM_CONFIDENCE_THRESHOLD < conf then
    "moderate_positive"
  else if pct ≤ STRONG_NEGATIVE_THRESHOLD ∧ HIGH_CONFIDENCE_THRESHOLD - 1/10 < conf then
    "strong_negative"
  else if pct ≤ MODERATE_NEGATIVE_THRESHOLD ∧ MEDIUM_CONFIDENCE_THRESHOLD < conf then
    "moderate_negative"
  else
    "mixed"

/-- Modelled from the spec: the decision table of §4.5 step 4, written
from the table's own entries (pct ≥ 70 ∧ conf > 0.6 → strong_positive;
pct ≥ 55 ∧ conf > 0.5 → moderate_positive; pct ≤ 30 ∧ conf > 0.6 →
strong_negative; pct ≤ 45 ∧ conf > 0.5 → moderate_negative; otherwise
mixed), to be compared with `classifyConsensus` from the source. -/
def specVerdictTable (pct conf : ℚ) : String :=
  if 70 ≤ pct ∧ 6/10 < conf then "strong_positive"
  else if 55 ≤ pct ∧ 1/2 < conf then "moderate_positive"
  else if pct ≤ 30 ∧ 6/10 < conf then "strong_negative"
  else if pct ≤ 45 ∧ 1/2 < conf then "moderate_negative"
  else "mixed"

/-- The nested `ml_insights` mapping (lines 91-96).  The original dict
key for the recency fraction is spelled with "ratio" in the source. -/
structure MLInsights where
  avg_relevance_score : ℚ
  high_confidence_papers : ℕ
  recent_papers_frac : ℚ
  avg_citation_impact : ℚ
  deriving DecidableEq

/-- The dictionary returned by `generate_ml_consensus`.  The degraded
returns carry only verdict, confidence and an empty insights mapping
(`none` models the empty dict `{}`); the free-text `explanation` string
(spec §4.5 step 5, no algorithmic role) is not modelled. -/
structure ConsensusResult where
  consensus : String
  percentage : Option ℚ := none
  confidence : ℚ
  total_papers : Option ℕ := none
  ml_insights : Option MLInsights := none
  deriving DecidableEq

/-- Rounding to `d` decimal digits.  Python's `round` uses ties-to-even
while this uses half-up; the two differ only at exact ties, which none of
the proved statements depends on. -/
def roundTo (d : ℕ) (q : ℚ) : ℚ :=
  (⌊q * (10 : ℚ) ^ d + 1/2⌋ : ℚ) / (10 : ℚ) ^ d

/-- `MLSummarizationService.generate_ml_consensus`: the empty-input
guard, the `except` handler, and the normal aggregation path. -/
def generateMLConsensus (papers : List Paper) (question : String)
    (senti : Except String (Paper → ℚ)) : ConsensusResult :=
  if papers.isEmpty then
    { consensus := "insufficient_data", confidence := 0 }
  else
    match senti with
    | .error _ => { consensus := "error", confidence := 0 }
    | .ok s =>
      let pct := positivePct papers s
      let avgC := avgConfidence papers
      { consensus := classifyConsensus pct avgC
        percentage := some (roundTo 1 pct)
        confidence := roundTo 2 avgC
        total_papers := some papers.length
        ml_insights := some
          { avg_relevance_score := listMean (papers.map (fun p => p.ml_relevance_score))
            high_confidence_papers :=
              (papers.filter (fun p => decide (HIGH_CONFIDENCE_THRESHOLD < p.ml_summary_confidence))).length
            recent_papers_frac :=
              ((papers.filter (fun p => decide (RECENT_YEAR_THRESHOLD ≤ p.year))).length : ℚ) / papers.length
            avg_citation_impact := listMean (papers.map (fun p => (p.citation_count : ℚ))) } }

/-! ### Bibliographic identity and key filtering -/

/-- Projection forgetting the three ML-derived attributes, used to state
that processing permutes the input papers without adding, dropping or
replacing any. -/
def stripML (p : Paper) : Paper :=
  { p with ml_relevance_score := 0, ml_cluster := -1, ml_summary_confidence := 0 }

/-- Boolean predicate selecting the elements whose key is exactly `r`. -/
def keyPred (f : α → ℚ) (r : ℚ) : α → Bool :=
  fun z => decide (f z = r)

/-! ### Concrete fixtures used to evaluate the pipeline -/

/-- A minimal concrete paper. -/
def samplePaper : Paper :=
  { title := "t", authors := ["a"], year := 2020, abstract := "plain text", url := "u" }

/-- The concrete paper of the spec's confidence example: 200 citations,
a 150-character abstract, year 2021. -/
def examplePaper : Paper :=
  { title := "t", authors := [], year := 2021,
    abstract := String.mk (List.replicate 150 'a'), url := "u", citation_count := 200 }

/-- An oracle whose vectorize-and-score step always raises. -/
def failOracle : SimOracle := fun _ _ => .error "boom"

/-- An oracle returning one document vector and a similarity of 2,
exhibiting an out-of-range upstream value stored unclamped. -/
def badOracle : SimOracle := fun _ _ => .ok ([[1]], [2])

/-- An oracle returning one in-range similarity. -/
def goodOracle : SimOracle := fun _ _ => .ok ([[1]], [4/5])

/-- An oracle returning the similarity 0.8 for a single paper. -/
def oracle08 : SimOracle := fun _ _ => .ok ([[1]], [8/10])

/-- Five concrete papers, taking the corpus above the clustering
threshold. -/
def papers5 : List Paper := List.replicate 5 samplePaper

/-- An oracle returning five document vectors and five similarities. -/
def oracle5 : SimOracle := fun _ _ => .ok ([[0], [0], [1], [1], [2]], [1, 1, 1, 1, 1])

/-- An oracle returning two similarities with a tie, to exercise the
stable sort. -/
def oracle2 : SimOracle := fun _ _ => .ok ([[1], [2]], [3/10, 3/10])

/-- Two distinct concrete papers. -/
def papers2 : List Paper :=
  [samplePaper, { samplePaper with title := "t2" }]

/-! ### Properties of the stable descending sort -/

theorem insertByDesc_perm (f : α → ℚ) (x : α) :
    ∀ l : List α, List.Perm (insertByDesc f x l) (x :: l)
  | [] => List.Perm.refl _
  | y :: ys => by
    unfold insertByDesc
    by_cases h : f y ≤ f x
    · rw [if_pos h]
    · rw [if_neg h]
      exact ((insertByDesc_perm f x ys).cons y).trans (List.Perm.swap x y ys)

theorem sortByDesc_perm (f : α → ℚ) : ∀ l : List α, List.Perm (sortByDesc f l) l
  | [] => List.Perm.refl _
  | x :: xs => by
    show List.Perm (insertByDesc f x (sortByDesc f xs)) (x :: xs)
    exact (insertByDesc_perm f x (sortByDesc f xs)).trans ((sortByDesc_perm f xs).cons x)

theorem mem_insertByDesc {f : α → ℚ} {x z : α} {l : List α} :
    z ∈ insertByDesc f x l ↔ z = x ∨ z ∈ l := by
  rw [(insertByDesc_perm f x l).mem_iff, List.mem_cons]

theorem insertByDesc_pairwise (f : α → ℚ) (x : α) :
    ∀ {l : List α}, List.Pairwise (fun a b => f b ≤ f a) l →
      List.Pairwise (fun a b => f b ≤ f a) (insertByDesc f x l)
  | [], _ => List.pairwise_singleton _ _
  | y :: ys, h => by
    rcases List.pairwise_cons.1 h with ⟨hy, hys⟩
    unfold insertByDesc
    by_cases hc : f y ≤ f x
    · rw [if_pos hc]
      refine List.pairwise_cons.2 ⟨?_, h⟩
      intro z hz
      rcases List.mem_cons.1 hz with rfl | hzys
      · exact hc
      · exact le_trans (hy z hzys) hc
    · rw [if_neg hc]
      refine List.pairwise_cons.2 ⟨?_, insertByDesc_pairwise f x hys⟩
      intro z hz
      rcases mem_insertByDesc.1 hz with rfl | hzys
      · exact le_of_lt (lt_of_not_le hc)
      · exact hy z hzys

theorem sortByDesc_pairwise (f : α → ℚ) :
    ∀ l : List α, List.Pairwise (fun a b => f b ≤ f a) (sortByDesc f l)
  | [] => List.Pairwise.nil
  | x :: xs => by
    show List.Pairwise _ (insertByDesc f x (sortByDesc f xs))
    exact insertByDesc_pairwise f x (sortByDesc_pairwise f xs)

theorem filter_insertByDesc_of_eq (f : α → ℚ) (x : α) (r : ℚ) (hr : f x = r) :
    ∀ l : List α, (insertByDesc f x l).filter (keyPred f r) = x :: l.filter (keyPred f r)
  | [] => by simp [insertByDesc, keyPred, hr]
  | y :: ys => by
    unfold insertByDesc
    by_cases hc : f y ≤ f x
    · rw [if_pos hc]
      simp [List.filter_cons, keyPred, hr]
    · rw [if_neg hc]
      have hy : f y ≠ r := by
        intro he
        exact hc (le_of_eq (hr ▸ he))
      rw [List.filter_cons, List.filter_cons]
      simp only [keyPred, decide_eq_true_eq, hy, if_false, decide_eq_false hy]
      exact filter_insertByDesc_of_eq f x r hr ys

theorem filter_insertByDesc_of_ne (f : α → ℚ) (x : α) (r : ℚ) (hr : f x ≠ r) :
    ∀ l : List α, (insertByDesc f x l).filter (keyPred f r) = l.filter (keyPred f r)
  | [] => by simp [insertByDesc, keyPred, hr]
  | y :: ys => by
    unfold insertByDesc
    by_cases hc : f y ≤ f x
    · rw [if_pos hc]
      rw [List.filter_cons, List.filter_cons]
      simp [keyPred, hr]
    · rw [if_neg hc]
      rw [List.filter_cons, List.filter_cons]
      rcases hd : keyPred f r y
      · exact filter_insertByDesc_of_ne f x r hr ys
      · rw [filter_insertByDesc_of_ne f x r hr ys]

/-- Stability of the sort: the elements carrying any fixed key keep
exactly their prior relative order. -/
theorem sortByDesc_filter (f : α → ℚ) (r : ℚ) :
    ∀ l : List α, (sortByDesc f l).filter (keyPred f r) = l.filter (keyPred f r)
  | [] => rfl
  | x :: xs => by
    show (insertByDesc f x (sortByDesc f xs)).filter (keyPred f r) = _
    by_cases hr : f x = r
    · rw [filter_insertByDesc_of_eq f x r hr, sortByDesc_filter f r xs, List.filter_cons]
      simp [keyPred, hr]
    · rw [filter_insertByDesc_of_ne f x r hr, sortByDesc_filter f r xs, List.filter_cons]
      simp [keyPred, hr]

/-! ### Properties of the update loop -/

theorem mem_updateAll :
    ∀ (ps : List Paper) (ss : List ℚ) (cs : List ℤ) (p : Paper),
      p ∈ updateAll ps ss cs → ∃ p0 s c, s ∈ ss ∧ c ∈ cs ∧ p = applyML p0 s c
  | p0 :: ps, s :: ss, c :: cs, p, hp => by
    rcases List.mem_cons.1 hp with rfl | h
    · exact ⟨p0, s, c, List.mem_cons_self _ _, List.mem_cons_self _ _, rfl⟩
    · rcases mem_updateAll ps ss cs p h with ⟨q, s1, c1, hs, hc, rfl⟩
      exact ⟨q, s1, c1, List.mem_cons_of_mem _ hs, List.mem_cons_of_mem _ hc, rfl⟩
  | [], ss, cs, p, hp => by simp [updateAll] at hp
  | _ :: _, [], cs, p, hp => by simp [updateAll] at hp
  | _ :: _, _ :: _, [], p, hp => by simp [updateAll] at hp

theorem stripML_applyML (p : Paper) (s : ℚ) (c : ℤ) :
    stripML (applyML p s c) = stripML p := rfl

theorem stripML_applyFallback (p : Paper) :
    stripML (applyFallback p) = stripML p := rfl

theorem updateAll_map_stripML :
    ∀ (ps : List Paper) (ss : List ℚ) (cs : List ℤ),
      ss.length = ps.length → cs.length = ps.length →
      (updateAll ps ss cs).map stripML = ps.map stripML
  | [], _, _, _, _ => by simp [updateAll]
  | p :: ps, s :: ss, c :: cs, hs, hc => by
    simp only [updateAll, List.map_cons, stripML_applyML]
    rw [updateAll_map_stripML ps ss cs (by simpa using hs) (by simpa using hc)]
  | _ :: _, [], _, hs, _ => by simp at hs
  | _ :: _, _ :: _, [], _, hc => by simp at hc

theorem updateAll_length (ps : List Paper) (ss : List ℚ) (cs : List ℤ)
    (hs : ss.length = ps.length) (hc : cs.length = ps.length) :
    (updateAll ps ss cs).length = ps.length := by
  have h := congrArg List.length (updateAll_map_stripML ps ss cs hs hc)
  simpa using h

/-- Every paper produced by the update loop carries as its confidence
the mean of its four own confidence factors, the first of which is its
own stored relevance score. -/
theorem updateAll_confidence (ps : List Paper) (ss : List ℚ) (cs : List ℤ) :
    ∀ p ∈ updateAll ps ss cs,
      p.ml_summary_confidence = listMean (confidenceFactors p.ml_relevance_score p) := by
  intro p hp
  rcases mem_updateAll ps ss cs p hp with ⟨q, s, c, _, _, rfl⟩
  simp [applyML, confidenceScore, confidenceFactors]

/-! ### Properties of the clustering model -/

theorem argminIdx_lt : ∀ l : List ℚ, l ≠ [] → argminIdx l < l.length
  | [_], _ => by simp [argminIdx]
  | x :: y :: rest, _ => by
    have ih := argminIdx_lt (y :: rest) (by simp)
    show (if x ≤ (y :: rest).getD (argminIdx (y :: rest)) 0 then 0
          else argminIdx (y :: rest) + 1) < (x :: y :: rest).length
    simp only [List.length_cons] at ih ⊢
    split
    · omega
    · omega

theorem assignLabel_lt (centroids : List (List ℚ)) (v : List ℚ)
    (h : centroids ≠ []) : assignLabel centroids v < centroids.length := by
  have hne : centroids.map (sqDist v) ≠ [] := by
    simpa using h
  have := argminIdx_lt (centroids.map (sqDist v)) hne
  simpa [assignLabel] using this

theorem lloydStep_length (pts cs : List (List ℚ)) :
    (lloydStep pts cs).length = cs.length := by
  simp [lloydStep]

theorem lloydIter_length :
    ∀ (n : ℕ) (pts cs : List (List ℚ)), (lloydIter n pts cs).length = cs.length
  | 0, _, _ => rfl
  | n + 1, pts, cs => by
    show (lloydIter n pts (lloydStep pts cs)).length = cs.length
    rw [lloydIter_length n pts (lloydStep pts cs), lloydStep_length]

theorem kmeansFitPredict_length (k : ℕ) (pts : List (List ℚ)) :
    (kmeansFitPredict k pts).length = pts.length := by
  simp [kmeansFitPredict]

theorem kmeansFitPredict_labels_lt (k : ℕ) (pts : List (List ℚ))
    (hk : 0 < k) (hkl : k ≤ pts.length) :
    ∀ i ∈ kmeansFitPredict k pts, i < k := by
  intro i hi
  unfold kmeansFitPredict at hi
  rcases List.mem_map.1 hi with ⟨v, _, rfl⟩
  have hlen : (lloydIter 10 pts (pts.take k)).length = k := by
    rw [lloydIter_length]
    simpa [List.length_take] using Nat.min_eq_left hkl
  have hne : lloydIter 10 pts (pts.take k) ≠ [] := by
    intro h0
    rw [h0] at hlen
    simp at hlen
    omega
  have := assignLabel_lt (lloydIter 10 pts (pts.take k)) v hne
  omega

theorem clustersFor_length (papers : List Paper) (vecs : List (List ℚ))
    (hv : vecs.length = papers.length) :
    (clustersFor papers vecs).length = papers.length := by
  unfold clustersFor
  by_cases h : MIN_PAPERS_FOR_CLUSTERING < papers.length
  · rw [if_pos h, List.length_map, kmeansFitPredict_length, hv]
  · rw [if_neg h]
    simp

theorem clustersFor_small (papers : List Paper) (vecs : List (List ℚ))
    (h : papers.length ≤ MIN_PAPERS_FOR_CLUSTERING) :
    ∀ c ∈ clustersFor papers vecs, c = 0 := by
  intro c hc
  unfold clustersFor at hc
  rw [if_neg (not_lt.2 h)] at hc
  exact (List.eq_of_mem_replicate hc)

theorem clustersFor_large (papers : List Paper) (vecs : List (List ℚ))
    (h : MIN_PAPERS_FOR_CLUSTERING < papers.length)
    (hv : vecs.length = papers.length) :
    ∀ c ∈ clustersFor papers vecs,
      0 ≤ c ∧ c < ((min MAX_CLUSTERS papers.length : ℕ) : ℤ) := by
  intro c hc
  unfold clustersFor at hc
  rw [if_pos h] at hc
  rcases List.mem_map.1 hc with ⟨n, hn, hEq⟩
  have hk : 0 < min MAX_CLUSTERS papers.length := by
    have : 0 < MAX_CLUSTERS := by decide
    have h0 : 0 < papers.length := by
      have : MIN_PAPERS_FOR_CLUSTERING = 4 := rfl
      omega
    omega
  have hkl : min MAX_CLUSTERS papers.length ≤ vecs.length := by
    rw [hv]
    exact min_le_right _ _
  have hlt := kmeansFitPredict_labels_lt _ vecs hk hkl n hn
  constructor
  · rw [← hEq]
    exact Int.ofNat_nonneg n
  · rw [← hEq]
    exact_mod_cast hlt

/-! ### Path lemmas for the processor and the aggregator -/

theorem process_papers_nil (query : String) (oracle : SimOracle) :
    process_papers [] query oracle = [] := rfl

theorem process_papers_error (papers : List Paper) (query : String)
    (oracle : SimOracle) (e : String)
    (h : oracle (papers.map paperText) query = .error e) :
    process_papers papers query oracle = papers.map applyFallback := by
  unfold process_papers
  by_cases hp : papers.isEmpty
  · rw [if_pos hp]
    have : papers = [] := List.isEmpty_iff.1 hp
    subst this
    rfl
  · rw [if_neg hp, h]
    rfl

theorem process_papers_ok (papers : List Paper) (query : String)
    (oracle : SimOracle) (vecs : List (List ℚ)) (sims : List ℚ)
    (hne : papers ≠ [])
    (hor : oracle (papers.map paperText) query = .ok (vecs, sims))
    (hs : sims.length = papers.length)
    (hv : vecs.length = papers.length) :
    process_papers papers query oracle =
      sortByDesc (fun p => p.ml_relevance_score)
        (updateAll papers sims (clustersFor papers vecs)) := by
  unfold process_papers
  rw [if_neg (by simpa [List.isEmpty_iff] using hne), hor]
  have hA : afterTry papers (.ok (vecs, sims)) =
      if sims.length = papers.length ∧ (clustersFor papers vecs).length = papers.length then
        sortByDesc (fun p => p.ml_relevance_score)
          (updateAll papers sims (clustersFor papers vecs))
      else papers.map applyFallback := rfl
  rw [hA, if_pos ⟨hs, clustersFor_length papers vecs hv⟩]

theorem generateMLConsensus_nil (question : String)
    (senti : Except String (Paper → ℚ)) :
    generateMLConsensus [] question senti =
      { consensus := "insufficient_data", confidence := 0 } := rfl

theorem generateMLConsensus_error (papers : List Paper) (question : String)
    (e : String) (hne : papers ≠ []) :
    generateMLConsensus papers question (.error e) =
      { consensus := "error", confidence := 0 } := by
  unfold generateMLConsensus
  rw [if_neg (by simpa [List.isEmpty_iff] using hne)]

theorem generateMLConsensus_ok (papers : List Paper) (question : String)
    (s : Paper → ℚ) (hne : papers ≠ []) :
    generateMLConsensus papers question (.ok s) =
      { consensus := classifyConsensus (positivePct papers s) (avgConfidence papers)
        percentage := some (roundTo 1 (positivePct papers s))
        confidence := roundTo 2 (avgConfidence papers)
        total_papers := some papers.length
        ml_insights := some
          { avg_relevance_score := listMean (papers.map (fun p => p.ml_relevance_score))
            high_confidence_papers :=
              (papers.filter (fun p => decide (HIGH_CONFIDENCE_THRESHOLD < p.ml_summary_confidence))).length
            recent_papers_frac :=
              ((papers.filter (fun p => decide (RECENT_YEAR_THRESHOLD ≤ p.year))).length : ℚ) / papers.length
            avg_citation_impact := listMean (papers.map (fun p => (p.citation_count : ℚ))) } } := by
  unfold generateMLConsensus
  rw [if_neg (by simpa [List.isEmpty_iff] using hne)]

/-! ### Claim theorems -/

/-- C8: for the empty paper list, `process_papers` returns immediately —
its result is the empty input list whatever the external vectorizer and
scorer would have answered, so neither is invoked — and
`generate_ml_consensus` returns the verdict "insufficient_data" with
confidence 0.0 and empty insights. -/
theorem empty_list_short_circuit :
    (∀ (query : String) (oracle : SimOracle), process_papers [] query oracle = [])
    ∧ (∀ (question : String) (senti : Except String (Paper → ℚ)),
        generateMLConsensus [] question senti =
          { consensus := "insufficient_data", percentage := none, confidence := 0,
            total_papers := none, ml_insights := none }) :=
  ⟨process_papers_nil, generateMLConsensus_nil⟩

/-- C9: computation errors never propagate: when the vectorize-and-score
step raises, `process_papers` returns the full input list with the
fallback values relevance 0.5, cluster 0, confidence 0.5 on every paper;
and when consensus aggregation raises, `generate_ml_consensus` returns a
well-formed result with verdict "error", confidence 0.0 and empty
insights. -/
theorem computation_error_fallback :
    (∀ (papers : List Paper) (query : String) (oracle : SimOracle) (e : String),
        oracle (papers.map paperText) query = .error e →
          process_papers papers query oracle = papers.map applyFallback
          ∧ (process_papers papers query oracle).length = papers.length
          ∧ ∀ p ∈ process_papers papers query oracle,
              p.ml_relevance_score = 1/2 ∧ p.ml_cluster = 0 ∧ p.ml_summary_confidence = 1/2)
    ∧ (∀ (papers : List Paper) (question : String) (e : String), papers ≠ [] →
        generateMLConsensus papers question (.error e) =
          { consensus := "error", percentage := none, confidence := 0,
            total_papers := none, ml_insights := none }) := by
  constructor
  · intro papers query oracle e h
    have heq := process_papers_error papers query oracle e h
    refine ⟨heq, by rw [heq]; simp, ?_⟩
    intro p hp
    rw [heq] at hp
    rcases List.mem_map.1 hp with ⟨q, _, rfl⟩
    exact ⟨rfl, rfl, rfl⟩
  · intro papers question e hne
    exact generateMLConsensus_error papers question e hne

/-- Witness for C9: the fallback behaviour evaluated on a concrete
one-paper corpus with an oracle that raises. -/
theorem computation_error_fallback_witness :
    (process_papers [samplePaper] "q" failOracle = [samplePaper].map applyFallback
      ∧ (process_papers [samplePaper] "q" failOracle).length = [samplePaper].length
      ∧ ∀ p ∈ process_papers [samplePaper] "q" failOracle,
          p.ml_relevance_score = 1/2 ∧ p.ml_cluster = 0 ∧ p.ml_summary_confidence = 1/2)
    ∧ generateMLConsensus [samplePaper] "q" (.error "boom") =
        { consensus := "error", percentage := none, confidence := 0,
          total_papers := none, ml_insights := none } :=
  ⟨computation_error_fallback.1 [samplePaper] "q" failOracle "boom" rfl,
   computation_error_fallback.2 [samplePaper] "q" "boom" (by simp)⟩

/-- C10: `process_papers` always returns a permutation of the input
papers — same bibliographic records, none added, dropped or replaced —
on the normal path and on the exception-fallback path alike, so the
output count equals the input count. -/
theorem output_permutation_of_input :
    ∀ (papers : List Paper) (query : String) (oracle : SimOracle),
      (process_papers papers query oracle).length = papers.length
      ∧ List.Perm ((process_papers papers query oracle).map stripML)
          (papers.map stripML) := by
  intro papers query oracle
  have hperm : List.Perm ((process_papers papers query oracle).map stripML)
      (papers.map stripML) := by
    unfold process_papers
    by_cases hp : papers.isEmpty
    · rw [if_pos hp]
    · rw [if_neg hp]
      have hfallback : (papers.map applyFallback).map stripML = papers.map stripML := by
        rw [List.map_map]
        rfl
      rcases hres : oracle (papers.map paperText) query with e | vs
      · show List.Perm ((afterTry papers (.error e)).map stripML) _
        rw [show afterTry papers (.error e) = papers.map applyFallback from rfl, hfallback]
      · rcases vs with ⟨vecs, sims⟩
        show List.Perm ((afterTry papers (.ok (vecs, sims))).map stripML) _
        have hA : afterTry papers (.ok (vecs, sims)) =
            if sims.length = papers.length ∧
                (clustersFor papers vecs).length = papers.length then
              sortByDesc (fun p => p.ml_relevance_score)
                (updateAll papers sims (clustersFor papers vecs))
            else papers.map applyFallback := rfl
        rw [hA]
        by_cases hg : sims.length = papers.length ∧
            (clustersFor papers vecs).length = papers.length
        · rw [if_pos hg]
          have h1 : List.Perm
              ((sortByDesc (fun p => p.ml_relevance_score)
                (updateAll papers sims (clustersFor papers vecs))).map stripML)
              ((updateAll papers sims (clustersFor papers vecs)).map stripML) :=
            (sortByDesc_perm _ _).map stripML
          rw [updateAll_map_stripML papers sims (clustersFor papers vecs) hg.1 hg.2] at h1
          exact h1
        · rw [if_neg hg, hfallback]
  refine ⟨?_, hperm⟩
  have h := hperm.length_eq
  simpa using h

/-- C1: for every non-empty paper list the consensus verdict is a pure
function of the positive percentage and the corpus-average confidence,
agreeing with the spec's decision table (pct ≥ 70 ∧ conf > 0.6 →
strong_positive; pct ≥ 55 ∧ conf > 0.5 → moderate_positive; pct ≤ 30 ∧
conf > 0.6 → strong_negative; pct ≤ 45 ∧ conf > 0.5 → moderate_negative;
otherwise mixed); in particular (72, 0.65) ↦ strong_positive,
(72, 0.55) ↦ moderate_positive and (48, 0.55) ↦ mixed. -/
theorem consensus_verdict_decision_table :
    (∀ pct conf : ℚ, classifyConsensus pct conf = specVerdictTable pct conf)
    ∧ (∀ (papers : List Paper) (question : String) (s : Paper → ℚ), papers ≠ [] →
        (generateMLConsensus papers question (.ok s)).consensus =
          classifyConsensus (positivePct papers s) (avgConfidence papers))
    ∧ classifyConsensus 72 (65/100) = "strong_positive"
    ∧ classifyConsensus 72 (55/100) = "moderate_positive"
    ∧ classifyConsensus 48 (55/100) = "mixed" := by
  refine ⟨?_, ?_,
    by norm_num [classifyConsensus, STRONG_POSITIVE_THRESHOLD, MODERATE_POSITIVE_THRESHOLD,
      STRONG_NEGATIVE_THRESHOLD, MODERATE_NEGATIVE_THRESHOLD, HIGH_CONFIDENCE_THRESHOLD,
      MEDIUM_CONFIDENCE_THRESHOLD],
    by norm_num [classifyConsensus, STRONG_POSITIVE_THRESHOLD, MODERATE_POSITIVE_THRESHOLD,
      STRONG_NEGATIVE_THRESHOLD, MODERATE_NEGATIVE_THRESHOLD, HIGH_CONFIDENCE_THRESHOLD,
      MEDIUM_CONFIDENCE_THRESHOLD],
    by norm_num [classifyConsensus, STRONG_POSITIVE_THRESHOLD, MODERATE_POSITIVE_THRESHOLD,
      STRONG_NEGATIVE_THRESHOLD, MODERATE_NEGATIVE_THRESHOLD, HIGH_CONFIDENCE_THRESHOLD,
      MEDIUM_CONFIDENCE_THRESHOLD]⟩
  · intro pct conf
    have h1 : HIGH_CONFIDENCE_THRESHOLD - 1/10 = (6/10 : ℚ) := by
      norm_num [HIGH_CONFIDENCE_THRESHOLD]
    unfold classifyConsensus specVerdictTable STRONG_POSITIVE_THRESHOLD
      MODERATE_POSITIVE_THRESHOLD STRONG_NEGATIVE_THRESHOLD
      MODERATE_NEGATIVE_THRESHOLD MEDIUM_CONFIDENCE_THRESHOLD
    rw [h1]
  · intro papers question s hne
    rw [generateMLConsensus_ok papers question s hne]

/-- Witness for C1: the verdict of a concrete one-paper corpus equals
the classification of its percentage and average confidence. -/
theorem consensus_verdict_decision_table_witness :
    ([samplePaper] ≠ ([] : List Paper))
    ∧ (generateMLConsensus [samplePaper] "q" (.ok (fun _ => 1))).consensus =
        classifyConsensus (positivePct [samplePaper] (fun _ => 1))
          (avgConfidence [samplePaper]) :=
  ⟨by simp, consensus_verdict_decision_table.2.1 [samplePaper] "q" (fun _ => 1) (by simp)⟩

/-- C2 counterexample: the claim's "regardless of the upstream
computation" fails on the code — an upstream similarity of 2 is stored
unclamped as the relevance score, outside [0,1] (the `__post_init__`
clamp runs only at construction, and the assignment in `process_papers`
does not re-clamp). -/
theorem scores_in_unit_interval_counterexample :
    (process_papers [samplePaper] "q" badOracle).map (fun p => p.ml_relevance_score) = [2]
    ∧ ¬ ((2 : ℚ) ≤ 1) := by
  constructor
  · rfl
  · norm_num

/-- C2 as amended: whenever every similarity the upstream step returns
lies in [0,1] (as exact cosine similarity of non-negative vectors does),
every paper stored by `process_papers` has its relevance score and its
confidence score in [0,1], on the normal and the fallback path alike. -/
theorem scores_in_unit_interval :
    ∀ (papers : List Paper) (query : String) (oracle : SimOracle),
      (∀ (texts : List String) (q : String) (vecs : List (List ℚ)) (sims : List ℚ),
          oracle texts q = .ok (vecs, sims) → ∀ x ∈ sims, 0 ≤ x ∧ x ≤ 1) →
      ∀ p ∈ process_papers papers query oracle,
        (0 ≤ p.ml_relevance_score ∧ p.ml_relevance_score ≤ 1)
        ∧ (0 ≤ p.ml_summary_confidence ∧ p.ml_summary_confidence ≤ 1) := by
  intro papers query oracle hb p hp
  have hfb : ∀ q ∈ papers.map applyFallback,
      (0 ≤ q.ml_relevance_score ∧ q.ml_relevance_score ≤ 1)
      ∧ (0 ≤ q.ml_summary_confidence ∧ q.ml_summary_confidence ≤ 1) := by
    intro q hq
    rcases List.mem_map.1 hq with ⟨q0, _, rfl⟩
    refine ⟨⟨?_, ?_⟩, ?_, ?_⟩ <;> norm_num [applyFallback]
  unfold process_papers at hp
  by_cases hempty : papers.isEmpty
  · rw [if_pos hempty] at hp
    have : papers = [] := List.isEmpty_iff.1 hempty
    subst this
    cases hp
  · rw [if_neg hempty] at hp
    rcases hres : oracle (papers.map paperText) query with e | vs
    · rw [hres] at hp
      exact hfb p hp
    · rcases vs with ⟨vecs, sims⟩
      rw [hres] at hp
      have hA : afterTry papers (.ok (vecs, sims)) =
          if sims.length = papers.length ∧
              (clustersFor papers vecs).length = papers.length then
            sortByDesc (fun p => p.ml_relevance_score)
              (updateAll papers sims (clustersFor papers vecs))
          else papers.map applyFallback := rfl
      rw [hA] at hp
      by_cases hg : sims.length = papers.length ∧
          (clustersFor papers vecs).length = papers.length
      · rw [if_pos hg] at hp
        have hp2 : p ∈ updateAll papers sims (clustersFor papers vecs) :=
          (sortByDesc_perm _ _).mem_iff.1 hp
        rcases mem_updateAll _ _ _ _ hp2 with ⟨p0, s, c, hsmem, _, rfl⟩
        have hsb : 0 ≤ s ∧ s ≤ 1 := hb _ _ _ _ hres s hsmem
        have hrel : (applyML p0 s c).ml_relevance_score = s := rfl
        have hconf : (applyML p0 s c).ml_summary_confidence = confidenceScore s p0 := rfl
        rw [hrel, hconf]
        refine ⟨hsb, ?_⟩
        have hmean : confidenceScore s p0 =
            (s + min ((p0.citation_count : ℚ) / 100) 1
              + (if p0.abstract ≠ "" ∧ 100 < p0.abstract.length then (1 : ℚ) else 1/2)
              + (if 2015 ≤ p0.year then (1 : ℚ) else 7/10)) / 4 := by
          simp only [confidenceScore, confidenceFactors, listMean, List.sum_cons,
            List.sum_nil, List.length_cons, List.length_nil]
          norm_num
          ring
        have hf2 : 0 ≤ min ((p0.citation_count : ℚ) / 100) 1
            ∧ min ((p0.citation_count : ℚ) / 100) 1 ≤ 1 := by
          constructor
          · apply le_min
            · positivity
            · norm_num
          · exact min_le_right _ _
        have hf3 : 0 ≤ (if p0.abstract ≠ "" ∧ 100 < p0.abstract.length then (1 : ℚ) else 1/2)
            ∧ (if p0.abstract ≠ "" ∧ 100 < p0.abstract.length then (1 : ℚ) else 1/2) ≤ 1 := by
          split <;> norm_num
        have hf4 : 0 ≤ (if 2015 ≤ p0.year then (1 : ℚ) else 7/10)
            ∧ (if 2015 ≤ p0.year then (1 : ℚ) else 7/10) ≤ 1 := by
          split <;> norm_num
        rw [hmean]
        constructor
        · have h1 := hsb.1
          have h2 := hf2.1
          have h3 := hf3.1
          have h4 := hf4.1
          linarith
        · have h1 := hsb.2
          have h2 := hf2.2
          have h3 := hf3.2
          have h4 := hf4.2
          linarith
      · rw [if_neg hg] at hp
        exact hfb p hp

/-- Witness for C2: the bounds evaluated on a concrete one-paper corpus
whose oracle returns the in-range similarity 0.8. -/
theorem scores_in_unit_interval_witness :
    (∀ (texts : List String) (q : String) (vecs : List (List ℚ)) (sims : List ℚ),
        goodOracle texts q = .ok (vecs, sims) → ∀ x ∈ sims, 0 ≤ x ∧ x ≤ 1)
    ∧ ∀ p ∈ process_papers [samplePaper] "q" goodOracle,
        (0 ≤ p.ml_relevance_score ∧ p.ml_relevance_score ≤ 1)
        ∧ (0 ≤ p.ml_summary_confidence ∧ p.ml_summary_confidence ≤ 1) := by
  have hb : ∀ (texts : List String) (q : String) (vecs : List (List ℚ)) (sims : List ℚ),
      goodOracle texts q = .ok (vecs, sims) → ∀ x ∈ sims, 0 ≤ x ∧ x ≤ 1 := by
    intro texts q vecs sims h x hx
    cases h
    rcases List.mem_singleton.1 hx with rfl
    norm_num
  exact ⟨hb, scores_in_unit_interval [samplePaper] "q" goodOracle hb⟩

set_option maxRecDepth 4000 in
/-- C4: every processed paper's confidence score is the arithmetic mean
of exactly four factors — its stored relevance score, its citation count
divided by 100 capped at 1, the abstract-quality indicator (1 if the
abstract is longer than 100 characters, else 0.5), and the recency
indicator (1 if the year is ≥ 2015, else 0.7); in particular relevance
0.8, 200 citations, a 150-character abstract and year 2021 give 0.95. -/
theorem confidence_mean_of_four_factors :
    (∀ (papers : List Paper) (query : String) (oracle : SimOracle)
        (vecs : List (List ℚ)) (sims : List ℚ),
        papers ≠ [] → oracle (papers.map paperText) query = .ok (vecs, sims) →
        sims.length = papers.length → vecs.length = papers.length →
        ∀ p ∈ process_papers papers query oracle,
          p.ml_summary_confidence =
            listMean [p.ml_relevance_score,
                      min ((p.citation_count : ℚ) / 100) 1,
                      if p.abstract ≠ "" ∧ 100 < p.abstract.length then 1 else 1/2,
                      if 2015 ≤ p.year then 1 else 7/10])
    ∧ confidenceScore (8/10) examplePaper = 95/100 := by
  constructor
  · intro papers query oracle vecs sims hne hor hs hv p hp
    rw [process_papers_ok papers query oracle vecs sims hne hor hs hv] at hp
    have hp2 : p ∈ updateAll papers sims (clustersFor papers vecs) :=
      (sortByDesc_perm _ _).mem_iff.1 hp
    have h := updateAll_confidence papers sims (clustersFor papers vecs) p hp2
    rw [h]
    rfl
  · have habs : examplePaper.abstract ≠ "" ∧ 100 < examplePaper.abstract.length := by
      constructor
      · decide
      · decide
    have hyear : (2015 : ℤ) ≤ examplePaper.year := by decide
    have hcc : (examplePaper.citation_count : ℚ) = 200 := by norm_num [examplePaper]
    unfold confidenceScore confidenceFactors listMean
    rw [if_pos habs, if_pos hyear, hcc]
    have hmin : min ((200 : ℚ) / 100) 1 = 1 := by
      apply min_eq_right
      norm_num
    rw [hmin]
    norm_num

/-- Witness for C4: the confidence of a concrete processed paper equals
the mean of its four factors. -/
theorem confidence_mean_of_four_factors_witness :
    ([examplePaper] ≠ ([] : List Paper))
    ∧ ∀ p ∈ process_papers [examplePaper] "q" oracle08,
        p.ml_summary_confidence =
          listMean [p.ml_relevance_score,
                    min ((p.citation_count : ℚ) / 100) 1,
                    if p.abstract ≠ "" ∧ 100 < p.abstract.length then 1 else 1/2,
                    if 2015 ≤ p.year then 1 else 7/10] :=
  ⟨by simp,
   confidence_mean_of_four_factors.1 [examplePaper] "q" oracle08 [[1]] [8/10]
     (by simp) rfl rfl rfl⟩

/-- C6: after processing, the papers are in descending order of
relevance score (every earlier paper's score is ≥ every later one's, so
a strictly larger score always precedes a smaller one), and the sort is
stable: the papers carrying any fixed relevance score appear in exactly
their prior (pre-sort, input) relative order. -/
theorem sorted_descending_stable :
    ∀ (papers : List Paper) (query : String) (oracle : SimOracle)
      (vecs : List (List ℚ)) (sims : List ℚ),
      papers ≠ [] → oracle (papers.map paperText) query = .ok (vecs, sims) →
      sims.length = papers.length → vecs.length = papers.length →
      List.Pairwise (fun a b => b.ml_relevance_score ≤ a.ml_relevance_score)
        (process_papers papers query oracle)
      ∧ ∀ r : ℚ,
          (process_papers papers query oracle).filter
              (keyPred (fun p : Paper => p.ml_relevance_score) r)
            = (updateAll papers sims (clustersFor papers vecs)).filter
              (keyPred (fun p : Paper => p.ml_relevance_score) r) := by
  intro papers query oracle vecs sims hne hor hs hv
  rw [process_papers_ok papers query oracle vecs sims hne hor hs hv]
  exact ⟨sortByDesc_pairwise _ _, fun r => sortByDesc_filter _ r _⟩

/-- Witness for C6: the order properties evaluated on a concrete
two-paper corpus whose similarities tie. -/
theorem sorted_descending_stable_witness :
    (papers2 ≠ [])
    ∧ (List.Pairwise (fun a b => b.ml_relevance_score ≤ a.ml_relevance_score)
        (process_papers papers2 "q" oracle2)
      ∧ ∀ r : ℚ,
          (process_papers papers2 "q" oracle2).filter
              (keyPred (fun p : Paper => p.ml_relevance_score) r)
            = (updateAll papers2 [3/10, 3/10] (clustersFor papers2 [[1], [2]])).filter
              (keyPred (fun p : Paper => p.ml_relevance_score) r)) :=
  ⟨by simp [papers2],
   sorted_descending_stable papers2 "q" oracle2 [[1], [2]] [3/10, 3/10]
     (by simp [papers2]) rfl rfl rfl⟩

/-- C7: when the paper count is at most the clustering threshold
(default 4) every stored cluster id is 0; when it exceeds the threshold
every stored cluster id lies in [0, min(K, N)) for the configured
maximum K (default 3), the labels being produced by the seeded
centroid-based partitioning model. -/
theorem cluster_id_range :
    ∀ (papers : List Paper) (query : String) (oracle : SimOracle)
      (vecs : List (List ℚ)) (sims : List ℚ),
      oracle (papers.map paperText) query = .ok (vecs, sims) →
      sims.length = papers.length → vecs.length = papers.length →
      (papers.length ≤ MIN_PAPERS_FOR_CLUSTERING →
        ∀ p ∈ process_papers papers query oracle, p.ml_cluster = 0)
      ∧ (MIN_PAPERS_FOR_CLUSTERING < papers.length →
        ∀ p ∈ process_papers papers query oracle,
          0 ≤ p.ml_cluster ∧ p.ml_cluster < ((min MAX_CLUSTERS papers.length : ℕ) : ℤ)) := by
  intro papers query oracle vecs sims hor hs hv
  by_cases hne : papers = []
  · subst hne
    constructor
    · intro _ p hp
      rw [process_papers_nil] at hp
      cases hp
    · intro h
      exact absurd h (by decide)
  · constructor
    · intro hsmall p hp
      rw [process_papers_ok papers query oracle vecs sims hne hor hs hv] at hp
      have hp2 : p ∈ updateAll papers sims (clustersFor papers vecs) :=
        (sortByDesc_perm _ _).mem_iff.1 hp
      rcases mem_updateAll _ _ _ _ hp2 with ⟨p0, s, c, _, hcmem, rfl⟩
      exact clustersFor_small papers vecs hsmall c hcmem
    · intro hlarge p hp
      rw [process_papers_ok papers query oracle vecs sims hne hor hs hv] at hp
      have hp2 : p ∈ updateAll papers sims (clustersFor papers vecs) :=
        (sortByDesc_perm _ _).mem_iff.1 hp
      rcases mem_updateAll _ _ _ _ hp2 with ⟨p0, s, c, _, hcmem, rfl⟩
      exact clustersFor_large papers vecs hlarge hv c hcmem

/-- Witness for C7: the cluster-id range evaluated on a concrete
five-paper corpus (above the threshold) and a one-paper corpus (below
it). -/
theorem cluster_id_range_witness :
    (MIN_PAPERS_FOR_CLUSTERING < papers5.length
      ∧ ∀ p ∈ process_papers papers5 "q" oracle5,
          0 ≤ p.ml_cluster ∧ p.ml_cluster < ((min MAX_CLUSTERS papers5.length : ℕ) : ℤ))
    ∧ ([samplePaper].length ≤ MIN_PAPERS_FOR_CLUSTERING
      ∧ ∀ p ∈ process_papers [samplePaper] "q" goodOracle, p.ml_cluster = 0) :=
  ⟨⟨by decide,
    (cluster_id_range papers5 "q" oracle5 [[0], [0], [1], [1], [2]] [1, 1, 1, 1, 1]
      rfl rfl rfl).2 (by decide)⟩,
   ⟨by decide,
    (cluster_id_range [samplePaper] "q" goodOracle [[1]] [4/5] rfl rfl rfl).1 (by decide)⟩⟩

/-- C3: a paper contributes its confidence-weighted sentiment to the
positive bucket exactly when its sentiment exceeds 0.1, its
confidence-weighted absolute sentiment to the negative bucket exactly
when its sentiment is below −0.1, and to neither bucket inside the dead
zone; and when both buckets are empty the positive percentage is exactly
50.0 (also as stored in the returned result). -/
theorem dead_zone_bucketing :
    ∀ s : Paper → ℚ,
      (∀ (p : Paper) (rest : List Paper), -(1/10) ≤ s p → s p ≤ 1/10 →
          positiveScores (p :: rest) s = positiveScores rest s
          ∧ negativeScores (p :: rest) s = negativeScores rest s)
      ∧ (∀ (p : Paper) (rest : List Paper), 1/10 < s p →
          positiveScores (p :: rest) s =
            s p * p.ml_summary_confidence :: positiveScores rest s
          ∧ negativeScores (p :: rest) s = negativeScores rest s)
      ∧ (∀ (p : Paper) (rest : List Paper), s p < -(1/10) →
          negativeScores (p :: rest) s =
            |s p| * p.ml_summary_confidence :: negativeScores rest s
          ∧ positiveScores (p :: rest) s = positiveScores rest s)
      ∧ (∀ papers : List Paper, positiveScores papers s = [] →
          negativeScores papers s = [] → positivePct papers s = 50)
      ∧ (∀ (papers : List Paper) (question : String), papers ≠ [] →
          positiveScores papers s = [] → negativeScores papers s = [] →
          (generateMLConsensus papers question (.ok s)).percentage = some 50) := by
  intro s
  have hpct : ∀ papers : List Paper, positiveScores papers s = [] →
      negativeScores papers s = [] → positivePct papers s = 50 := by
    intro papers hpos hneg
    unfold positivePct totalWeight
    rw [hpos, hneg]
    norm_num
  refine ⟨?_, ?_, ?_, hpct, ?_⟩
  · intro p rest h1 h2
    constructor
    · show (if 1/10 < s p then _ else _) = _
      rw [if_neg (not_lt.2 h2)]
    · show (if 1/10 < s p then _ else _) = _
      rw [if_neg (not_lt.2 h2), if_neg (not_lt.2 h1)]
  · intro p rest h
    constructor
    · show (if 1/10 < s p then _ else _) = _
      rw [if_pos h]
    · show (if 1/10 < s p then _ else _) = _
      rw [if_pos h]
  · intro p rest h
    have hnp : ¬ (1/10 < s p) := by
      intro hc
      linarith
    constructor
    · show (if 1/10 < s p then _ else _) = _
      rw [if_neg hnp, if_pos h]
    · show (if 1/10 < s p then _ else _) = _
      rw [if_neg hnp]
  · intro papers question hne hpos hneg
    rw [generateMLConsensus_ok papers question s hne]
    show some (roundTo 1 (positivePct papers s)) = some 50
    rw [hpct papers hpos hneg]
    norm_num [roundTo]

/-- Witness for C3: the dead-zone behaviour and the 50.0 default
evaluated with the all-neutral sentiment assignment on a concrete
one-paper corpus. -/
theorem dead_zone_bucketing_witness :
    (-(1/10 : ℚ) ≤ 0 ∧ (0 : ℚ) ≤ 1/10
      ∧ positiveScores (samplePaper :: []) (fun _ => 0) = positiveScores [] (fun _ => 0)
      ∧ negativeScores (samplePaper :: []) (fun _ => 0) = negativeScores [] (fun _ => 0))
    ∧ ([samplePaper] ≠ ([] : List Paper)
      ∧ (generateMLConsensus [samplePaper] "q" (.ok (fun _ => 0))).percentage = some 50) := by
  have hdead := (dead_zone_bucketing (fun _ => 0)).1 samplePaper []
    (by norm_num) (by norm_num)
  have hempty : positiveScores [samplePaper] (fun _ => 0) = [] := by
    norm_num [positiveScores]
  have hempty2 : negativeScores [samplePaper] (fun _ => 0) = [] := by
    norm_num [negativeScores]
  have h50 := (dead_zone_bucketing (fun _ => 0)).2.2.2.2 [samplePaper] "q"
    (by simp) hempty hempty2
  exact ⟨⟨by norm_num, by norm_num, hdead.1, hdead.2⟩, ⟨by simp, h50⟩⟩

/-- The hyperbolic tangent stays strictly below 1. -/
theorem real_tanh_lt_one (x : ℝ) : Real.tanh x < 1 := by
  rw [Real.tanh_eq_sinh_div_cosh, div_lt_one (Real.cosh_pos x)]
  exact Real.sinh_lt_cosh x

/-- The hyperbolic tangent stays strictly above −1. -/
theorem neg_one_lt_real_tanh (x : ℝ) : -1 < Real.tanh x := by
  have h := real_tanh_lt_one (-x)
  rw [Real.tanh_neg] at h
  linarith

/-- C5 (amended): the per-paper sentiment counters are presence-based —
each indicator present as a substring of the lower-cased abstract
contributes exactly 2, however often it occurs — after which the net
polarity is scaled by `relevance × (1 + min(citations/100, 1))`, divided
by 10, and squashed through tanh, so the sentiment lies strictly in
(−1, 1). -/
theorem sentiment_scaling_and_bounds :
    (∀ (inds : List String) (ab : List Char),
        indicatorScore inds ab =
          2 * ((inds.filter (fun ind => subList ind.toList ab)).length : ℤ))
    ∧ (∀ p : Paper, sentimentCore p =
        ((indicatorScore POSITIVE_INDICATORS (lowerChars p.abstract)
            - indicatorScore NEGATIVE_INDICATORS (lowerChars p.abstract) : ℤ) : ℚ)
          * p.ml_relevance_score * (1 + min ((p.citation_count : ℚ) / 100) 1))
    ∧ (∀ p : Paper, mlSentimentAnalysis p = Real.tanh ((sentimentCore p : ℝ) / 10))
    ∧ (∀ p : Paper, -1 < mlSentimentAnalysis p ∧ mlSentimentAnalysis p < 1) := by
  refine ⟨?_, fun p => rfl, fun p => rfl,
    fun p => ⟨neg_one_lt_real_tanh _, real_tanh_lt_one _⟩⟩
  intro inds
  induction inds with
  | nil => intro ab; simp [indicatorScore]
  | cons i inds ih =>
    intro ab
    show ((i :: inds).map (fun ind => if subList ind.toList ab then (2 : ℤ) else 0)).sum
        = 2 * (((i :: inds).filter (fun ind => subList ind.toList ab)).length : ℤ)
    simp only [List.map_cons, List.sum_cons, List.filter_cons]
    rcases hc : subList i.toList ab
    · rw [if_neg (by simp), if_neg (by simp)]
      have ih2 := ih ab
      simp only [indicatorScore] at ih2
      rw [ih2]
      ring
    · rw [if_pos rfl, if_pos rfl]
      have ih2 := ih ab
      simp only [indicatorScore] at ih2
      rw [ih2, List.length_cons]
      push_cast
      ring

/-- C5 counterexample: on the abstract "effective effective" the code's
presence-based counter yields 2, while the claim's occurrence-based
counting yields 4 — each match does not add 2, only each distinct
present indicator does. -/
theorem sentiment_occurrence_counterexample :
    indicatorScore POSITIVE_INDICATORS (lowerChars "effective effective") = 2
    ∧ occurrenceScore POSITIVE_INDICATORS (lowerChars "effective effective") = 4
    ∧ indicatorScore POSITIVE_INDICATORS (lowerChars "effective effective")
        ≠ occurrenceScore POSITIVE_INDICATORS (lowerChars "effective effective") := by
  refine ⟨?_, ?_, ?_⟩ <;> decide
